import Mathlib

/-!
Shallow embedding of the drum-sequencer playback engine (`src/index.js`).

The engine has three classes:

* `Sound` wraps one `Audio` element: it can set its playback rate and
  volume, start playback for a duration (scheduling a deferred stop at
  `duration - 10` ms), and force-stop (volume to 0, pause, rewind).
* `Channel` owns one `Sound`, a step `sequence` (a list of 0/1 cells),
  a `beat` cursor, a step `duration` in milliseconds derived from the
  tempo, and a repeating timer handle (`interval`).  `playBeat` is one
  tick: it fires the sound (audibly when the cell at the cursor is
  truthy, silently otherwise), dispatches a DOM event named after
  `(sound name, beat index)` for audible steps, then advances and wraps
  the cursor.
* `Sequencer` owns the channel list and the shared tempo, fanning out
  play / stop / tempo changes.

Timers are modelled explicitly: `Sound.play` returns the delay of the
deferred stop it schedules, and a `Channel`'s running `setInterval`
handle is an `Option ℚ` recording the period the timer was created
with (`none` when idle).  DOM event dispatches are modelled as the list
of `(sound name, beat index)` notifications a tick emits; the source's
per-index `Event` object cache only memoises the dispatched object, the
dispatched identity is always `(name, beat)`.  Durations and tempos are
exact rationals (the JS numbers involved are small and exactly
representable).
-/

/-- State of the underlying JS `Audio` element, as far as the engine
touches it: `volume`, `playbackRate`, `currentTime` and whether it is
paused. -/
structure AudioState where
  volume : ℚ
  playbackRate : ℚ
  currentTime : ℚ
  paused : Bool
deriving Repr, DecidableEq

/-- `class Sound`: a named wrapper around one `Audio` element. -/
structure Sound where
  audio : AudioState
  name : String
deriving Repr, DecidableEq

/-- `new Sound(url, name, rate)`: the constructor stores the name and sets
the playback rate through the `rate` setter (the JS default is `rate = 1`).
The fresh `Audio` element starts paused, at position 0 and volume 1. -/
def Sound.make (name : String) (rate : ℚ) : Sound :=
  { audio := { volume := 1, playbackRate := rate, currentTime := 0, paused := true },
    name := name }

/-- `set rate (rate) { this.audio.playbackRate = rate }` -/
def Sound.setRate (s : Sound) (rate : ℚ) : Sound :=
  { s with audio := { s.audio with playbackRate := rate } }

/-- `set volume (volume) { this.audio.volume = volume }` -/
def Sound.setVolume (s : Sound) (volume : ℚ) : Sound :=
  { s with audio := { s.audio with volume := volume } }

/-- `Sound.stop()`: volume to 0 first (anti-click), then pause, then rewind
to position 0. -/
def Sound.stop (s : Sound) : Sound :=
  let s1 := s.setVolume 0
  { s1 with audio := { s1.audio with paused := true, currentTime := 0 } }

/-- `Sound.play(duration, volume)`: sets the volume, starts playback, and
schedules `setTimeout(() => this.stop(), duration - 10)`.  Returns the new
sound state together with the delay of the scheduled deferred stop. -/
def Sound.play (s : Sound) (duration volume : ℚ) : Sound × ℚ :=
  let s1 := (s.setVolume volume)
  ({ s1 with audio := { s1.audio with paused := false } }, duration - 10)

/-- What one `Channel.playBeat` tick does to the outside world: the DOM
events it dispatches (as `(sound name, beat index)` pairs) and the
`sound.play(duration, volume)` calls it makes. -/
structure BeatEffect where
  notes : List (String × ℕ)
  plays : List (ℚ × ℚ)
deriving Repr, DecidableEq

/-- `class Channel`: one sound, a cell list (`sequence`), the `beat`
cursor, the derived step `duration` in ms, and the repeating-timer handle
(`interval`, carrying the period the timer was started with, `none` when
idle). -/
structure Channel where
  sound : Sound
  sequence : List ℕ
  beat : ℕ
  duration : ℚ
  interval : Option ℚ
deriving Repr, DecidableEq

/-- `set bpm (bpm)`: recomputes `duration = (60 / bpm) * (1000 / 4)` and,
when `bpm > 60`, doubles the sound's playback rate (`this.sound.rate = 2`). -/
def Channel.setBpm (c : Channel) (bpm : ℚ) : Channel :=
  let c1 := { c with duration := (60 / bpm) * (1000 / 4) }
  if 60 < bpm then { c1 with sound := c1.sound.setRate 2 } else c1

/-- `new Channel(sound, sequence, bpm)`: stores the sound and sequence,
zeroes the cursor, and runs the `bpm` setter (the JS defaults are a 16-cell
all-zero sequence and 120 bpm; callers here pass both explicitly). -/
def Channel.make (sound : Sound) (sequence : List ℕ) (bpm : ℚ) : Channel :=
  Channel.setBpm { sound := sound, sequence := sequence, beat := 0,
                   duration := 0, interval := none } bpm

/-- `Channel.clear()`: `this.sequence = new Array(16).fill(0)`. -/
def Channel.clear (c : Channel) : Channel :=
  { c with sequence := List.replicate 16 0 }

/-- `Channel.playBeat()`: one tick.  If the cell at the cursor is truthy
(a JS number is truthy iff it is nonzero, and an out-of-range read gives
`undefined`, which is falsy — both are `getD … 0 ≠ 0` here), dispatch the
`beat-[name]-[beat]` event and `sound.play(duration)` at the default
volume 1; otherwise `sound.play(duration, 0)`.  Then increment the cursor
and reset it to 0 once it reaches `sequence.length`. -/
def Channel.playBeat (c : Channel) : Channel × BeatEffect :=
  let fired : ℚ × ℚ :=
    if c.sequence.getD c.beat 0 ≠ 0 then (c.duration, 1) else (c.duration, 0)
  let notes : List (String × ℕ) :=
    if c.sequence.getD c.beat 0 ≠ 0 then [(c.sound.name, c.beat)] else []
  let sound' := (c.sound.play fired.1 fired.2).1
  let beat' := if c.sequence.length ≤ c.beat + 1 then 0 else c.beat + 1
  ({ c with sound := sound', beat := beat' }, { notes := notes, plays := [fired] })

/-- `Channel.loop()`: `this.interval = setInterval(() => this.playBeat(), this.duration)` —
the repeating timer is created with the period read from `duration` at
this moment. -/
def Channel.loop (c : Channel) : Channel :=
  { c with interval := some c.duration }

/-- `Channel.stop()`: `clearInterval(this.interval); this.beat = 0`. -/
def Channel.stop (c : Channel) : Channel :=
  { c with interval := none, beat := 0 }

/-- The channel state after `n` ticks. -/
def Channel.ticksState (c : Channel) : ℕ → Channel
  | 0 => c
  | n + 1 => ((c.ticksState n).playBeat).1

/-- The per-tick effects of `n` consecutive ticks, oldest first, together
with the final channel state. -/
def Channel.ticksEffects (c : Channel) : ℕ → Channel × List BeatEffect
  | 0 => (c, [])
  | n + 1 =>
    let out := c.playBeat
    let rest := out.1.ticksEffects n
    (rest.1, out.2 :: rest.2)

/-- All playback-trigger notifications emitted over `n` consecutive ticks. -/
def Channel.ticksNotes (c : Channel) : ℕ → List (String × ℕ)
  | 0 => []
  | n + 1 => (c.playBeat).2.notes ++ ((c.playBeat).1.ticksNotes n)

/-- `class Sequencer`: the channel list and the backing field of the `bpm`
accessor pair. -/
structure Sequencer where
  channels : List Channel
  storedBpm : ℚ
deriving Repr, DecidableEq

/-- `set bpm (bpm)`: store the value and fan it out to every channel's
`bpm` setter. -/
def Sequencer.setBpm (s : Sequencer) (bpm : ℚ) : Sequencer :=
  { channels := s.channels.map (fun c => c.setBpm bpm), storedBpm := bpm }

/-- `get bpm ()`: return the stored value. -/
def Sequencer.getBpm (s : Sequencer) : ℚ :=
  s.storedBpm

/-- `new Sequencer(channels, bpm)`: stores the channels and runs the `bpm`
setter (the JS default is 120 bpm; callers here pass it explicitly). -/
def Sequencer.make (channels : List Channel) (bpm : ℚ) : Sequencer :=
  Sequencer.setBpm { channels := channels, storedBpm := 0 } bpm

/-- `Sequencer.play()`: `this.channels.forEach(c => c.loop())`. -/
def Sequencer.play (s : Sequencer) : Sequencer :=
  { s with channels := s.channels.map Channel.loop }

/-- `Sequencer.stop()`: `this.channels.forEach(c => c.stop())`. -/
def Sequencer.stop (s : Sequencer) : Sequencer :=
  { s with channels := s.channels.map Channel.stop }

/-! ### Basic facts about the embedded operations -/

theorem playBeat_fst_sequence (c : Channel) : (c.playBeat).1.sequence = c.sequence :=
  rfl

theorem playBeat_fst_beat (c : Channel) :
    (c.playBeat).1.beat = if c.sequence.length ≤ c.beat + 1 then 0 else c.beat + 1 :=
  rfl

theorem playBeat_snd_notes_of_zero (c : Channel) (h : c.sequence.getD c.beat 0 = 0) :
    (c.playBeat).2.notes = [] := by
  simp only [Channel.playBeat]
  rw [h]
  simp

theorem setBpm_sequence (c : Channel) (b : ℚ) : (c.setBpm b).sequence = c.sequence := by
  unfold Channel.setBpm
  split <;> rfl

theorem setBpm_beat (c : Channel) (b : ℚ) : (c.setBpm b).beat = c.beat := by
  unfold Channel.setBpm
  split <;> rfl

theorem setBpm_interval (c : Channel) (b : ℚ) : (c.setBpm b).interval = c.interval := by
  unfold Channel.setBpm
  split <;> rfl

theorem setBpm_duration (c : Channel) (b : ℚ) :
    (c.setBpm b).duration = (60 / b) * (1000 / 4) := by
  unfold Channel.setBpm
  split <;> rfl

theorem setBpm_rate_of_gt (c : Channel) (b : ℚ) (h : 60 < b) :
    (c.setBpm b).sound.audio.playbackRate = 2 := by
  unfold Channel.setBpm
  rw [if_pos h]
  rfl

theorem setBpm_sound_of_le (c : Channel) (b : ℚ) (h : b ≤ 60) :
    (c.setBpm b).sound = c.sound := by
  unfold Channel.setBpm
  rw [if_neg (not_lt.mpr h)]

/-- After any number of ticks, the sequence is untouched and the cursor has
advanced by that many steps modulo the sequence length (provided it started
in range). -/
theorem ticksState_sequence_beat (c : Channel) (L : ℕ) (hL : c.sequence.length = L)
    (hb : c.beat < L) :
    ∀ N, ((c.ticksState N).sequence = c.sequence ∧ (c.ticksState N).beat = (c.beat + N) % L) := by
  intro N
  induction N with
  | zero =>
    exact ⟨rfl, by simp [Channel.ticksState, Nat.mod_eq_of_lt hb]⟩
  | succ n ih =>
    obtain ⟨hseq, hbeat⟩ := ih
    have hlen' : (c.ticksState n).sequence.length = L := by rw [hseq, hL]
    have hpos : 0 < L := Nat.pos_of_ne_zero (by omega)
    have hblt : (c.ticksState n).beat < L := by
      rw [hbeat]; exact Nat.mod_lt _ hpos
    refine ⟨by rw [Channel.ticksState, playBeat_fst_sequence, hseq], ?_⟩
    rw [Channel.ticksState, playBeat_fst_beat, hlen']
    have hgoal : (c.beat + (n + 1)) % L = ((c.ticksState n).beat + 1) % L := by
      rw [hbeat, Nat.mod_add_mod, Nat.add_assoc]
    rw [hgoal]
    split
    · have hEq : (c.ticksState n).beat + 1 = L := by omega
      rw [hEq, Nat.mod_self]
    · rw [Nat.mod_eq_of_lt (by omega)]

/-- A tick on a silent (zero or missing) cell: no notification, one
`sound.play` call at level 0 for the step-duration. -/
theorem playBeat_snd_of_zero (c : Channel) (h : c.sequence.getD c.beat 0 = 0) :
    (c.playBeat).2 = { notes := [], plays := [(c.duration, 0)] } := by
  simp only [Channel.playBeat]
  rw [h]
  simp

/-- A tick on an audible cell: exactly one notification tagged
`(voice-name, cursor)` and one `sound.play` call at level 1 for the
step-duration. -/
theorem playBeat_snd_of_one (c : Channel) (h : c.sequence.getD c.beat 0 = 1) :
    (c.playBeat).2 = { notes := [(c.sound.name, c.beat)], plays := [(c.duration, 1)] } := by
  simp only [Channel.playBeat]
  rw [h]
  simp

theorem getD_replicate_zero (n i : ℕ) : (List.replicate n (0 : ℕ)).getD i 0 = 0 := by
  induction n generalizing i with
  | zero => rfl
  | succ n ih =>
    cases i with
    | zero => rfl
    | succ i => exact ih i

/-- A channel whose every cell reads as 0 emits no notifications, however
many ticks are taken. -/
theorem ticksNotes_of_all_zero (c : Channel) (h : ∀ i, c.sequence.getD i 0 = 0) (n : ℕ) :
    c.ticksNotes n = [] := by
  induction n generalizing c with
  | zero => rfl
  | succ n ih =>
    have h' : ∀ i, (c.playBeat).1.sequence.getD i 0 = 0 := by
      intro i
      rw [playBeat_fst_sequence]
      exact h i
    rw [Channel.ticksNotes, playBeat_snd_notes_of_zero c (h c.beat), ih _ h']
    rfl

/-! ### Concrete instances used by witnesses and counterexamples -/

/-- One bootstrap-style channel: a fresh sound at the JS-default playback
rate 1, the JS-default 16-cell all-zero sequence, the JS-default 120 bpm. -/
def hatChannel : Channel :=
  Channel.make (Sound.make "hat" 1) (List.replicate 16 0) 120

/-- One bootstrap-style sequencer owning `hatChannel` at the JS-default
120 bpm. -/
def demoSequencer : Sequencer :=
  Sequencer.make [hatChannel] 120

/-- The seeded starter pattern of channel 0 (the Afrika Bambaataa hat
line). -/
def bambaataa : List ℕ :=
  [1, 0, 1, 1, 1, 0, 1, 1, 1, 0, 1, 1, 1, 1, 1, 1]

/-- The channel of the C5 scenario: the starter pattern at 120 bpm. -/
def demoChannel : Channel :=
  Channel.make (Sound.make "hat" 1) bambaataa 120

/-- A playing channel stopped mid-loop at cursor 3. -/
def chanAt3 : Channel :=
  { hatChannel.loop with beat := 3 }

/-- A playing channel stopped mid-loop at cursor 7. -/
def chanAt7 : Channel :=
  { (Channel.make (Sound.make "kick" 1) (List.replicate 16 0) 120).loop with beat := 7 }

/-- A sequencer caught mid-loop with its two channels at different cursor
positions. -/
def midSequencer : Sequencer :=
  { channels := [chanAt3, chanAt7], storedBpm := 120 }

/-- A channel holding a 3-cell replacement pattern whose cursor is out of
range. -/
def shortChannel : Channel :=
  { Channel.make (Sound.make "ride" 1) [1, 0, 1] 120 with beat := 5 }

/-! ### Claim theorems -/

/-- C1: for every Channel whose pattern has length 16 and any tempo b > 0,
after N ticks starting at cursor 0 the cursor equals N mod 16: each tick
advances the cursor by exactly 1 and wraps it to 0 when it reaches 16. -/
theorem claim_C1 (c : Channel) (b : ℚ) (N : ℕ) (hlen : c.sequence.length = 16)
    (hbeat : c.beat = 0) (_hb : 0 < b) :
    ((c.setBpm b).ticksState N).beat = N % 16 := by
  have hlen' : (c.setBpm b).sequence.length = 16 := by rw [setBpm_sequence, hlen]
  have hbeat' : (c.setBpm b).beat = 0 := by rw [setBpm_beat, hbeat]
  have h := (ticksState_sequence_beat (c.setBpm b) 16 hlen' (by omega) N).2
  rwa [hbeat', Nat.zero_add] at h

/-- Witness for C1: a concrete 16-step channel at 120 bpm, ticked 21 times,
ends with its cursor at 21 % 16 = 5. -/
theorem claim_C1_witness :
    (Channel.make (Sound.make "kick" 1) (List.replicate 16 0) 120).sequence.length = 16 ∧
    (Channel.make (Sound.make "kick" 1) (List.replicate 16 0) 120).beat = 0 ∧
    (0 : ℚ) < 120 ∧
    (((Channel.make (Sound.make "kick" 1) (List.replicate 16 0) 120).setBpm 120).ticksState
      21).beat = 21 % 16 :=
  ⟨by decide, by decide, by norm_num,
    claim_C1 _ 120 21 (by decide) (by decide) (by norm_num)⟩

/-- C2: on every tick, an audible cell (value 1) produces exactly one
playback-trigger notification tagged (voice-name, cursor-index) and one
`sound.play` call for the channel's step-duration at the default level 1; a
silent cell (value 0) produces no notification but still one `sound.play`
call for the step-duration at level 0. -/
theorem claim_C2 (c : Channel) :
    (c.sequence.getD c.beat 0 = 1 →
      (c.playBeat).2 = { notes := [(c.sound.name, c.beat)], plays := [(c.duration, 1)] }) ∧
    (c.sequence.getD c.beat 0 = 0 →
      (c.playBeat).2 = { notes := [], plays := [(c.duration, 0)] }) :=
  ⟨playBeat_snd_of_one c, playBeat_snd_of_zero c⟩

/-- Witness for C2: both branches at concrete channels — the audible cell of
`[1,0]` notifies and plays at level 1; the silent cell of `[0,1]` plays at
level 0 with no notification. -/
theorem claim_C2_witness :
    ((Channel.make (Sound.make "snare" 1) [1, 0] 120).sequence.getD
        (Channel.make (Sound.make "snare" 1) [1, 0] 120).beat 0 = 1 ∧
      ((Channel.make (Sound.make "snare" 1) [1, 0] 120).playBeat).2 =
        { notes := [((Channel.make (Sound.make "snare" 1) [1, 0] 120).sound.name,
            (Channel.make (Sound.make "snare" 1) [1, 0] 120).beat)],
          plays := [((Channel.make (Sound.make "snare" 1) [1, 0] 120).duration, 1)] }) ∧
    ((Channel.make (Sound.make "tom" 1) [0, 1] 120).sequence.getD
        (Channel.make (Sound.make "tom" 1) [0, 1] 120).beat 0 = 0 ∧
      ((Channel.make (Sound.make "tom" 1) [0, 1] 120).playBeat).2 =
        { notes := [],
          plays := [((Channel.make (Sound.make "tom" 1) [0, 1] 120).duration, 0)] }) :=
  ⟨⟨by decide, (claim_C2 _).1 (by decide)⟩, ⟨by decide, (claim_C2 _).2 (by decide)⟩⟩

/-- C6: `Sound.play(durationMs, level)` schedules its deferred stop at delay
`durationMs - 10`, hence no later than `durationMs - 10` after the call; and
the stop it defers forces the sound silent (volume 0), paused, and rewound to
position 0, whatever playback state the sound is in when it runs. -/
theorem claim_C6 (s t : Sound) (d v : ℚ) :
    (Sound.play s d v).2 ≤ d - 10 ∧
    (Sound.stop t).audio.volume = 0 ∧
    (Sound.stop t).audio.paused = true ∧
    (Sound.stop t).audio.currentTime = 0 :=
  ⟨le_refl _, rfl, rfl, rfl⟩

/-- C8: starting a Channel captures the step-duration current at `loop()`
time as the timer period; a later `setTempo` changes the stored duration but
leaves the running timer's period untouched, so the next tick still fires on
the old period. -/
theorem claim_C8 (c : Channel) (b : ℚ) :
    (Channel.loop c).interval = some c.duration ∧
    ((Channel.loop c).setBpm b).interval = some c.duration ∧
    ((Channel.loop c).setBpm b).duration = (60 / b) * (1000 / 4) := by
  refine ⟨rfl, ?_, setBpm_duration _ _⟩
  rw [setBpm_interval]
  rfl

/-- C3: `Sequencer.setTempo(b)` immediately recomputes every owned
Channel's step-duration to `(60 / b) * (1000 / 4)` milliseconds, in any
channel state, and `getTempo` afterwards returns `b`. -/
theorem claim_C3 (s : Sequencer) (b : ℚ) :
    (s.setBpm b).getBpm = b ∧
    ∀ c, c ∈ (s.setBpm b).channels → c.duration = (60 / b) * (1000 / 4) := by
  refine ⟨rfl, ?_⟩
  intro c hc
  obtain ⟨c', _, rfl⟩ := List.mem_map.mp hc
  exact setBpm_duration c' b

/-- Witness for C3: setting the demo sequencer to 90 bpm gives tempo 90 and
step-duration `(60 / 90) * (1000 / 4)` on its channel. -/
theorem claim_C3_witness :
    (demoSequencer.setBpm 90).getBpm = 90 ∧
    ((hatChannel.setBpm 120).setBpm 90) ∈ (demoSequencer.setBpm 90).channels ∧
    ((hatChannel.setBpm 120).setBpm 90).duration = (60 / 90) * (1000 / 4) := by
  have mem : ((hatChannel.setBpm 120).setBpm 90) ∈ (demoSequencer.setBpm 90).channels := by
    simp [demoSequencer, Sequencer.make, Sequencer.setBpm]
  exact ⟨(claim_C3 demoSequencer 90).1, mem, (claim_C3 demoSequencer 90).2 _ mem⟩

/-- C4 counterexample: the claim promises that `setTempo(b)` with
`0 < b ≤ 60` leaves every owned Channel's Voice playback rate equal to 1,
but on the bootstrap-style sequencer (whose channel was constructed at the
JS-default 120 bpm, which already doubled the rate) `setTempo 50` leaves
the rate at 2 ≠ 1. -/
theorem claim_C4_counterexample :
    (0 : ℚ) < 50 ∧ (50 : ℚ) ≤ 60 ∧
    ((demoSequencer.setBpm 50).channels.map fun c => c.sound.audio.playbackRate) = [2] ∧
    (2 : ℚ) ≠ 1 := by
  refine ⟨by norm_num, by norm_num, ?_, by norm_num⟩
  show [((hatChannel.setBpm 120).setBpm 50).sound.audio.playbackRate] = [2]
  rw [setBpm_sound_of_le _ 50 (by norm_num)]
  rw [setBpm_rate_of_gt hatChannel 120 (by norm_num)]

/-- C4 amended: `setTempo(b)` with `b > 60` sets every owned Channel's
Voice playback rate to 2; with `0 < b ≤ 60` it leaves each Channel's Voice
(and hence its playback rate) unchanged — the rate is 1 afterwards only if
it was 1 before. -/
theorem claim_C4 (s : Sequencer) (b : ℚ) :
    (s.setBpm b).channels = s.channels.map (fun c => c.setBpm b) ∧
    (60 < b → ∀ c, c ∈ (s.setBpm b).channels → c.sound.audio.playbackRate = 2) ∧
    (0 < b → b ≤ 60 → ∀ c, c ∈ s.channels → (c.setBpm b).sound = c.sound) := by
  refine ⟨rfl, ?_, ?_⟩
  · intro hb c hc
    obtain ⟨c', _, rfl⟩ := List.mem_map.mp hc
    exact setBpm_rate_of_gt c' b hb
  · intro _ hb c _
    exact setBpm_sound_of_le c b hb

/-- Witness for the amended C4: on the demo sequencer, `setTempo 90` gives
rate 2; `setTempo 50` leaves the channel's sound untouched. -/
theorem claim_C4_witness :
    (60 : ℚ) < 90 ∧
    ((hatChannel.setBpm 120).setBpm 90) ∈ (demoSequencer.setBpm 90).channels ∧
    ((hatChannel.setBpm 120).setBpm 90).sound.audio.playbackRate = 2 ∧
    (0 : ℚ) < 50 ∧ (50 : ℚ) ≤ 60 ∧
    (hatChannel.setBpm 120) ∈ demoSequencer.channels ∧
    ((hatChannel.setBpm 120).setBpm 50).sound = (hatChannel.setBpm 120).sound := by
  have mem90 : ((hatChannel.setBpm 120).setBpm 90) ∈ (demoSequencer.setBpm 90).channels := by
    simp [demoSequencer, Sequencer.make, Sequencer.setBpm]
  have memd : (hatChannel.setBpm 120) ∈ demoSequencer.channels := by
    simp [demoSequencer, Sequencer.make, Sequencer.setBpm]
  exact ⟨by norm_num, mem90, (claim_C4 demoSequencer 90).2.1 (by norm_num) _ mem90,
    by norm_num, by norm_num, memd,
    (claim_C4 demoSequencer 50).2.2 (by norm_num) (by norm_num) _ memd⟩

/-- C5 counterexample: the claimed step-duration of 250 ms is wrong — at
120 bpm the code computes `(60 / 120) * (1000 / 4) = 125` ms. -/
theorem claim_C5_counterexample :
    demoChannel.duration = 125 ∧ (125 : ℚ) ≠ 250 := by
  constructor
  · rw [show demoChannel.duration = (60 / 120) * (1000 / 4) from setBpm_duration _ _]
    norm_num
  · norm_num

/-- C5 amended: the starter pattern at 120 bpm has step-duration 125 ms
(not 250 ms); ticking 16 times from cursor 0 notifies exactly at indices
{0,2,3,4,6,7,8,10,11,12,13,14,15}, plays silently (level 0) exactly at
indices {1,5,9}, and leaves the cursor at 0. -/
theorem claim_C5 :
    demoChannel.duration = 125 ∧
    (demoChannel.ticksEffects 16).2.map BeatEffect.notes =
      [[("hat", 0)], [], [("hat", 2)], [("hat", 3)], [("hat", 4)], [], [("hat", 6)],
       [("hat", 7)], [("hat", 8)], [], [("hat", 10)], [("hat", 11)], [("hat", 12)],
       [("hat", 13)], [("hat", 14)], [("hat", 15)]] ∧
    (demoChannel.ticksEffects 16).2.map BeatEffect.plays =
      [[(125, 1)], [(125, 0)], [(125, 1)], [(125, 1)], [(125, 1)], [(125, 0)], [(125, 1)],
       [(125, 1)], [(125, 1)], [(125, 0)], [(125, 1)], [(125, 1)], [(125, 1)], [(125, 1)],
       [(125, 1)], [(125, 1)]] ∧
    (demoChannel.ticksEffects 16).1.beat = 0 := by
  have hch : demoChannel =
      { sound := { audio := { volume := 1, playbackRate := 2, currentTime := 0,
                              paused := true },
                   name := "hat" },
        sequence := bambaataa, beat := 0, duration := 125, interval := none } := by
    unfold demoChannel Channel.make Channel.setBpm
    rw [if_pos (by norm_num : (60 : ℚ) < 120)]
    simp only [Sound.make, Sound.setRate, Channel.mk.injEq, Sound.mk.injEq,
      AudioState.mk.injEq]
    norm_num
  rw [hch]
  decide

/-- C7: `Sequencer.stop()` maps `Channel.stop` over every owned channel,
and each stopped channel has its timer cancelled and its cursor reset to 0,
whatever position it was at. -/
theorem claim_C7 (s : Sequencer) :
    (s.stop).channels = s.channels.map Channel.stop ∧
    ∀ c, c ∈ (s.stop).channels → c.beat = 0 ∧ c.interval = none := by
  refine ⟨rfl, ?_⟩
  intro c hc
  obtain ⟨c', _, rfl⟩ := List.mem_map.mp hc
  exact ⟨rfl, rfl⟩

/-- Witness for C7: stopping a sequencer caught with its two playing
channels at the distinct cursors 3 and 7 resets both cursors to 0 and
cancels both timers. -/
theorem claim_C7_witness :
    chanAt3.beat ≠ chanAt7.beat ∧
    (Channel.stop chanAt3) ∈ (midSequencer.stop).channels ∧
    (Channel.stop chanAt3).beat = 0 ∧ (Channel.stop chanAt3).interval = none ∧
    (Channel.stop chanAt7) ∈ (midSequencer.stop).channels ∧
    (Channel.stop chanAt7).beat = 0 ∧ (Channel.stop chanAt7).interval = none := by
  have mem3 : (Channel.stop chanAt3) ∈ (midSequencer.stop).channels := by
    simp [midSequencer, Sequencer.stop]
  have mem7 : (Channel.stop chanAt7) ∈ (midSequencer.stop).channels := by
    simp [midSequencer, Sequencer.stop]
  exact ⟨by decide, mem3, ((claim_C7 midSequencer).2 _ mem3).1,
    ((claim_C7 midSequencer).2 _ mem3).2, mem7, ((claim_C7 midSequencer).2 _ mem7).1,
    ((claim_C7 midSequencer).2 _ mem7).2⟩

/-- C9: `clear()` replaces the sequence with 16 zero cells and leaves the
cursor and the running timer untouched, and any number of ticks taken right
after it emit zero playback-trigger notifications. -/
theorem claim_C9 (c : Channel) (n : ℕ) :
    (c.clear).sequence = List.replicate 16 0 ∧
    (c.clear).beat = c.beat ∧
    (c.clear).interval = c.interval ∧
    (c.clear).ticksNotes n = [] := by
  refine ⟨rfl, rfl, rfl, ?_⟩
  apply ticksNotes_of_all_zero
  intro i
  exact getD_replicate_zero 16 i

/-- C10: the cursor wrap compares against the current sequence's actual
length (not the constant 16) and a missing cell reads as a silent step, so
one tick of a channel holding any non-empty pattern leaves the cursor
inside `[0, length)`, and a tick taken from an out-of-range cursor emits no
notification and plays silently. -/
theorem claim_C10 (c : Channel) (hpos : 0 < c.sequence.length) :
    ((c.playBeat).1.sequence = c.sequence ∧ (c.playBeat).1.beat < c.sequence.length) ∧
    (c.sequence.length ≤ c.beat →
      (c.playBeat).2 = { notes := [], plays := [(c.duration, 0)] }) := by
  refine ⟨⟨playBeat_fst_sequence c, ?_⟩, ?_⟩
  · rw [playBeat_fst_beat]
    split <;> omega
  · intro hout
    exact playBeat_snd_of_zero c (List.getD_eq_default _ _ hout)

/-- Witness for C10: the 3-cell channel with its cursor stranded at 5 ticks
silently, emits nothing, and ends with its cursor back inside range. -/
theorem claim_C10_witness :
    0 < shortChannel.sequence.length ∧
    shortChannel.sequence.length ≤ shortChannel.beat ∧
    (shortChannel.playBeat).1.beat < shortChannel.sequence.length ∧
    (shortChannel.playBeat).2 = { notes := [], plays := [(shortChannel.duration, 0)] } :=
  ⟨by decide, by decide, ((claim_C10 shortChannel (by decide)).1).2,
    (claim_C10 shortChannel (by decide)).2 (by decide)⟩
